import Mathlib

/-!
# Verification development for the BIFF trip-planner app (`src/app.py`)

This file gives a shallow embedding, in Lean 4, of the core logic of the
Streamlit trip-planner application:

* the sheet-backed store `load_data` / `save_data` together with the
  process-wide `st.cache_data` memoisation (note that `load_data(_worksheet)`
  has an underscore-prefixed parameter, so Streamlit does *not* key its memo
  on the worksheet: the memo is a single process-wide slot);
* the geocoding function `geocode_address` (address query with name fallback,
  `time.sleep(1)` throttling, exception swallowing), instrumented so that the
  number of `time.sleep(1)` executions and of `geolocator.geocode` calls is
  part of the result;
* the scraper `fetch_movie_info`, modelled at selector granularity: a
  fetched document is the collection of values the CSS selectors return,
  and a failed fetch (network / HTTP status error) is `none`;
* the tab-4 derived-metrics pass over the `biff_2024` sheet: the row filter
  on the place-name column, numeric coercion of the cost columns, the
  stable lexicographic sort by parsed visit date and visit time
  (`pandas.sort_values` over several columns uses a stable lexsort with
  missing keys placed last), the `dropna` on the parsed visit date, and the
  per-day grouping; also the per-row conditional geocoding loop.

Machine/floating-point values are represented exactly: money amounts as `ℚ`,
geographic coordinates as an `Int × Int` payload produced by the external
geocoder (the program never computes with coordinates, it only stores and
forwards them, so the payload type is irrelevant to the claims).

Python string operations (`strip`, `split`, `replace`, `in`) are implemented
here over `List Char` so that every definition evaluates by `decide`;
`pd.to_numeric(errors='coerce')`, `pd.to_datetime(errors='coerce')` and
`pd.to_datetime(format='%H:%M', errors='coerce')` are modelled on the data
shapes the sheet actually holds (decimal number strings, ISO `YYYY-MM-DD`
dates, `HH:MM` clock times); unparseable inputs yield `none` exactly as
`errors='coerce'` yields `NaN`/`NaT`.
-/

namespace Biff

/-! ## String primitives (Python `str` operations over `List Char`) -/

/-- Python `str.strip()` on the front of a character list. -/
def dropWS (l : List Char) : List Char := l.dropWhile Char.isWhitespace

/-- Python `str.strip()`: drop whitespace from both ends. -/
def trimChars (l : List Char) : List Char :=
  ((dropWS l).reverse.dropWhile Char.isWhitespace).reverse

/-- Python `s.strip()` on a `String`. -/
def trimS (s : String) : String := String.mk (trimChars s.toList)

/-- Python `s.split(sep)[0]` for a one-character separator:
the longest prefix not containing the separator. -/
def beforeChar (c : Char) (s : String) : String :=
  String.mk (s.toList.takeWhile (fun a => a != c))

/-- Python `s.split(sep)` for a one-character separator. -/
def splitChar (c : Char) : List Char → List (List Char)
  | [] => [[]]
  | a :: as =>
    if a == c then [] :: splitChar c as
    else
      match splitChar c as with
      | [] => [[a]]
      | h :: t => (a :: h) :: t

/-- Does `l` start with `pat`? (Python `str.startswith`.) -/
def startsWithChars : List Char → List Char → Bool
  | [], _ => true
  | _ :: _, [] => false
  | p :: ps, a :: as => p == a && startsWithChars ps as

/-- Is `pat` a contiguous substring of `l`? (Python `pat in s`, and
`Series.str.contains` for a pattern with no regex metacharacters.) -/
def hasInfixChars (pat : List Char) : List Char → Bool
  | [] => startsWithChars pat []
  | a :: as => startsWithChars pat (a :: as) || hasInfixChars pat as

/-- Python `s.replace(pat, "")` (leftmost, non-overlapping): remove every
occurrence of the nonempty pattern `pat` from `l`. -/
def removeAll (pat : List Char) (l : List Char) : List Char :=
  match l with
  | [] => []
  | a :: as =>
    if pat ≠ [] ∧ startsWithChars pat (a :: as) then
      removeAll pat ((a :: as).drop pat.length)
    else
      a :: removeAll pat as
termination_by l.length
decreasing_by
  · simp only [List.length_drop, List.length_cons]
    rename_i h
    have hk : 1 ≤ pat.length := by
      cases pat with
      | nil => exact absurd rfl h.1
      | cons p ps => simp
    omega
  · simp

/-- `.text.replace(label, "").strip()` as applied to the scraped fields. -/
def stripLabel (label s : String) : String :=
  String.mk (trimChars (removeAll label.toList s.toList))

/-- Digits-only filter, Python `re.sub(r'\D', '', s)`. -/
def digitsOnly (s : String) : String :=
  String.mk (s.toList.filter Char.isDigit)

/-- `" ".join(l)`. -/
def joinSpaces : List String → String
  | [] => ""
  | [x] => x
  | x :: y :: t => x ++ " " ++ joinSpaces (y :: t)

/-- Parse a nonempty all-digit character list as a natural number. -/
def digitsToNat (l : List Char) : Option Nat :=
  if l ≠ [] ∧ l.all Char.isDigit then
    some (l.foldl (fun n c => n * 10 + (c.toNat - 48)) 0)
  else none

/-- Unsigned part of `pd.to_numeric(errors='coerce')` on a decimal string:
`digits` or `digits.digits`. -/
def parseUnsigned (l : List Char) : Option ℚ :=
  match splitChar '.' l with
  | [a] => (digitsToNat a).map (fun n => (n : ℚ))
  | [a, b] =>
    match digitsToNat a, digitsToNat b with
    | some x, some y => some ((x : ℚ) + (y : ℚ) / (10 : ℚ) ^ b.length)
    | _, _ => none
  | _ => none

/-- `pd.to_numeric(errors='coerce')` on one cell string: optional sign,
then an unsigned decimal numeral; anything else coerces to `none` (NaN). -/
def parseNumber (s : String) : Option ℚ :=
  match trimChars s.toList with
  | '-' :: rest => (parseUnsigned rest).map (fun q => -q)
  | '+' :: rest => parseUnsigned rest
  | l => parseUnsigned l

/-- `pd.to_datetime(errors='coerce')` on an ISO `YYYY-MM-DD` date string,
encoded order-isomorphically as `y*10000 + m*100 + d`; anything that does not
parse is `none` (NaT). -/
def parseDate (s : String) : Option Nat :=
  match splitChar '-' (trimChars s.toList) with
  | [y, m, d] =>
    match digitsToNat y, digitsToNat m, digitsToNat d with
    | some yn, some mn, some dn =>
      if 1 ≤ mn ∧ mn ≤ 12 ∧ 1 ≤ dn ∧ dn ≤ 31 then
        some (yn * 10000 + mn * 100 + dn)
      else none
    | _, _, _ => none
  | _ => none

/-- `pd.to_datetime(format='%H:%M', errors='coerce')` on a clock-time string,
encoded as minutes after midnight; anything that does not parse is `none`. -/
def parseTime (s : String) : Option Nat :=
  match splitChar ':' (trimChars s.toList) with
  | [h, m] =>
    match digitsToNat h, digitsToNat m with
    | some hn, some mn =>
      if h.length ≤ 2 ∧ m.length ≤ 2 ∧ hn ≤ 23 ∧ mn ≤ 59 then
        some (hn * 60 + mn)
      else none
    | _, _ => none
  | _ => none

/-! ## Cells and rows

A sheet cell is `Option String`: `none` models a missing value (`NaN`, or a
column absent from the row), `some s` a text cell. A row is an association
list from column names to cells; DataFrame columns are unique, so reading
and writing the first binding of a key matches pandas semantics. -/

abbrev Cell := Option String

abbrev Row := List (String × Cell)

/-- `row.get(col)`: `none` when the column is missing or the cell is NaN. -/
def getCell : Row → String → Option String
  | [], _ => none
  | (k, v) :: rest, key => if k = key then v else getCell rest key

/-- `df.loc[index, col] = value`: overwrite the column's cell, creating the
column at the end of the row when absent. -/
def setCell : Row → String → Cell → Row
  | [], key, v => [(key, v)]
  | (k, w) :: rest, key, v =>
    if k = key then (k, v) :: rest else (k, w) :: setCell rest key v

/-! ## `geocode_address` (src/app.py lines 70-102)

The external geocoder `geolocator.geocode(query, timeout=10)` is an oracle
`Geocoder`: for a query string it either raises (`Except.error ()`), returns
a match with a coordinate payload, or returns no match (`Except.ok none`).
`geocode_address` is embedded as a total function whose `GeoOutcome` also
counts the `time.sleep(1)` executions and the `geolocator.geocode` calls
performed; the Python `(None, None)` return is `result = none`, and a
returned match `(location.latitude, location.longitude)` is `result = some c`.
Every exception the body can raise is caught by one of its two `except`
arms, which is why the embedding is a plain total function: no exception
escapes the boundary. -/

/-- A coordinate payload from the external geocoder. The program only stores
and forwards coordinates, so their representation is immaterial. -/
abbrev Coord := Int × Int

/-- One reply of `geolocator.geocode`: raise, match, or no match. -/
abbrev GeoReply := Except Unit (Option Coord)

/-- The external geocoding service. -/
abbrev Geocoder := String → GeoReply

/-- Result of one `geocode_address` call, with its effect counts. -/
structure GeoOutcome where
  result : Option Coord
  sleeps : Nat
  calls : Nat
deriving Repr, DecidableEq

/-- Python truthiness test `x and not pd.isna(x) and str(x).strip()` for a
cell: present, nonempty, and not blank. -/
def presentStr (x : Cell) : Bool :=
  match x with
  | none => false
  | some s => !s.isEmpty && !(trimS s).isEmpty

/-- `f"부산 {s.split('(')[0].strip()}"`: strip the parenthesised qualifier,
trim, and prefix the regional disambiguator. -/
def cleanQuery (s : String) : String :=
  "부산 " ++ trimS (beforeChar '(' s)

/-- Second half of `geocode_address` (lines 89-102): the name-based attempt,
entered with the sleeps/calls already accumulated by the address attempt.
An exception here returns `(None, None)` directly (no sleep); a reply sleeps
one unit and returns the match if any, else falls to the final
`return None, None`. -/
def geocodeSecond (geo : Geocoder) (name : Cell) (s c : Nat) : GeoOutcome :=
  if presentStr name then
    match geo (cleanQuery (name.getD "")) with
    | .error _ => ⟨none, s, c + 1⟩
    | .ok (some loc) => ⟨some loc, s + 1, c + 1⟩
    | .ok none => ⟨none, s + 1, c + 1⟩
  else ⟨none, s, c⟩

/-- `geocode_address(address, name)` (lines 70-102). The address attempt:
if `address` is usable, query the geocoder; an exception falls through to
the name attempt with no sleep; a reply sleeps one unit, returns on a match,
and otherwise falls through to the name attempt. -/
def geocodeAddress (geo : Geocoder) (address name : Cell) : GeoOutcome :=
  if presentStr address then
    match geo (cleanQuery (address.getD "")) with
    | .error _ => geocodeSecond geo name 0 1
    | .ok (some loc) => ⟨some loc, 1, 1⟩
    | .ok none => geocodeSecond geo name 1 1
  else geocodeSecond geo name 0 0

/-- Did this reply return (as opposed to raise)? -/
def isOkReply : GeoReply → Bool
  | .ok _ => true
  | .error _ => false

/-- Did this reply return a match? -/
def isMatchReply : GeoReply → Bool
  | .ok (some _) => true
  | _ => false

/-- Is the name-based attempt reached? (Exactly when the address attempt
does not return a match: address absent/blank, query raised, or no match.) -/
def nameAttempted (geo : Geocoder) (address : Cell) : Bool :=
  !(presentStr address && isMatchReply (geo (cleanQuery (address.getD ""))))

/-- Number of throttle sleeps the spec-amended claim predicts: one per
external call that returns without raising. -/
def sleepCount (geo : Geocoder) (address name : Cell) : Nat :=
  (if presentStr address && isOkReply (geo (cleanQuery (address.getD "")))
    then 1 else 0) +
  (if nameAttempted geo address && presentStr name
      && isOkReply (geo (cleanQuery (name.getD "")))
    then 1 else 0)

/-- A geocoder that always raises (e.g. every request times out). -/
def geoThrow : Geocoder := fun _ => .error ()

/-- A geocoder that always reports no match. -/
def geoNoMatch : Geocoder := fun _ => .ok none

/-- A geocoder that always returns the same match. -/
def geoHit : Geocoder := fun _ => .ok (some (35, 129))

/-! ## `fetch_movie_info` (src/app.py lines 106-155)

A fetched detail page is modelled at selector granularity: the `Doc`
structure holds exactly what each CSS selector of the function returns.
`select_one` results are `Option String` (the tag's `.text`, or `none` when
the tag is absent); `select` results are `List`. The title tag additionally
records the text of its `<small>` child, which the code `decompose`s before
reading `.text`, so `titH1 = some (t, small)` yields title text `t`.
A network or HTTP-status failure of `requests.get`/`raise_for_status` is a
`none` page. Inside the schedule loop the code dereferences
`select_one(".code").text` (and `.date`, `.time`, `.theater`) without a
guard: a missing tag raises `AttributeError`, which the enclosing
`try/except` turns into a `None` result for the whole function. -/

/-- One `.pgv_schedule .pgv_sch_list` block, by selector. -/
structure Sched where
  code : Option String
  date : Option String
  time : Option String
  theater : Option String
  grade : List String
deriving Repr, DecidableEq

/-- One fetched detail page, by selector. -/
structure Doc where
  titH1 : Option (String × Option String)
  filmTitEn : Option String
  dirName : Option String
  synopsis : Option String
  specList : List String
  keywords : List String
  schedules : List Sched
deriving Repr, DecidableEq

/-- An output row of the scraper: a Python dict in insertion order. -/
abbrev MovieRow := List (String × String)

/-- First-binding lookup in a scraped row. -/
def lookupRow : MovieRow → String → Option String
  | [], _ => none
  | (k, v) :: rest, key => if k = key then some v else lookupRow rest key

/-- The film-level fields `base_info` (lines 116-137), in insertion order. -/
def baseInfo (d : Doc) : MovieRow :=
  [("한국어 제목", match d.titH1 with | some t => trimS t.1 | none => ""),
   ("영어 제목", match d.filmTitEn with | some t => trimS t | none => ""),
   ("감독", match d.dirName with | some t => trimS t | none => ""),
   ("Program Note", match d.synopsis with | some t => trimS t | none => ""),
   ("국가", if 0 < d.specList.length
      then stripLabel "국가" (d.specList.getD 0 "") else ""),
   ("제작 연도", if 1 < d.specList.length
      then stripLabel "제작연도" (d.specList.getD 1 "") else ""),
   ("러닝타임", if 2 < d.specList.length
      then stripLabel "러닝타임" (d.specList.getD 2 "") else ""),
   ("상영포맷", if 3 < d.specList.length
      then stripLabel "상영포맷" (d.specList.getD 3 "") else ""),
   ("컬러", if 4 < d.specList.length
      then stripLabel "컬러" (d.specList.getD 4 "") else ""),
   ("해시태그1", (d.keywords.map trimS).getD 0 ""),
   ("해시태그2", (d.keywords.map trimS).getD 1 ""),
   ("해시태그3", (d.keywords.map trimS).getD 2 "")]

/-- The showing-level fields one schedule block contributes (lines 143-150),
in insertion order. Only meaningful when the block is well-formed. -/
def showFields (url : String) (s : Sched) : MovieRow :=
  [("예매코드", digitsOnly (s.code.getD "")),
   ("날짜", stripLabel "날짜" (s.date.getD "")),
   ("시간", stripLabel "시간" (s.time.getD "")),
   ("상영관", stripLabel "상영관" (s.theater.getD "")),
   ("기타", joinSpaces ((s.grade.map trimS).filter (fun t => !t.isEmpty))),
   ("영화페이지", url)]

/-- Does the block carry all four tags the loop dereferences unguarded? -/
def wellFormedSched (s : Sched) : Bool :=
  s.code.isSome && s.date.isSome && s.time.isSome && s.theater.isSome

/-- One iteration of the schedule loop: `base_info.copy()` updated with the
showing fields, or the `AttributeError` (`none`) a missing tag raises. -/
def schedRow (url : String) (base : MovieRow) (s : Sched) : Option MovieRow :=
  match s.code, s.date, s.time, s.theater with
  | some _, some _, some _, some _ => some (base ++ showFields url s)
  | _, _, _, _ => none

/-- `fetch_movie_info(url)` (lines 106-155): `none` page (network or
HTTP-status exception) gives `None`; an `AttributeError` anywhere in the
schedule loop gives `None` (no partial rows); otherwise
`final_data_list if final_data_list else [base_info]`. -/
def fetchMovieInfo (url : String) (page : Option Doc) : Option (List MovieRow) :=
  match page with
  | none => none
  | some d =>
    match d.schedules.mapM (schedRow url (baseInfo d)) with
    | none => none
    | some rows => some (if rows.isEmpty then [baseInfo d] else rows)

/-- The showing-level column names. -/
def showingKeys : List String :=
  ["예매코드", "날짜", "시간", "상영관", "기타", "영화페이지"]

/-! ## The sheet store, `load_data`, `save_data`, and `st.cache_data`
(src/app.py lines 58-66, 70, 106)

The remote spreadsheet stores every cell as text: `set_with_dataframe`
writes a missing value (`NaN`) as the empty cell, and
`get_as_dataframe(..., dtype=str).fillna("")` reads every cell back as text
with empty/missing cells normalised to `""`; the write/read pair therefore
composes to `textify`. `st.cache_data` is one process-wide memo store shared
by every decorated function; `st.cache_data.clear()` (called inside
`save_data`) empties all of it. `load_data`'s parameter is spelled
`_worksheet`, and Streamlit excludes underscore-prefixed parameters from
the cache key, so the `load_data` memo is a *single* slot, not a per-sheet
map. `geocode_address` is keyed on the `(address, name)` pair and
`fetch_movie_info` on the URL. The `ttl=600` bound on `load_data` only
shortens the memo's life; no claim depends on expiry, so it is not
modelled. Each cached operation also reports how many times it performed
its external effect (a remote read, `geolocator.geocode` calls, one page
fetch). -/

/-- A stored sheet: rectangular text cells. -/
abbrev SheetTable := List (List String)

/-- The remote spreadsheet. -/
structure Store where
  sheets : String → SheetTable

/-- Composite of `set_with_dataframe` and
`get_as_dataframe(dtype=str).fillna("")`: every cell as text, missing cells
as the empty string. -/
def textify (df : List (List Cell)) : SheetTable :=
  df.map (fun row => row.map (fun c => c.getD ""))

/-- First-binding lookup in a memo table. -/
def lookupA {α β : Type} [DecidableEq α] (l : List (α × β)) (k : α) : Option β :=
  (l.find? (fun p => decide (p.1 = k))).map (fun p => p.2)

/-- The process-wide `st.cache_data` store. -/
structure Caches where
  loadMemo : Option SheetTable
  geoMemo : List ((Cell × Cell) × Option Coord)
  fetchMemo : List (String × Option (List MovieRow))

/-- `st.cache_data.clear()`. -/
def clearedCaches : Caches := ⟨none, [], []⟩

/-- `save_data(worksheet, df)` (lines 62-66): clear and overwrite the sheet,
then `st.cache_data.clear()`. -/
def saveData (ws : String) (df : List (List Cell)) (store : Store)
    (_c : Caches) : Store × Caches :=
  (⟨fun w => if w = ws then textify df else store.sheets w⟩, clearedCaches)

/-- `load_data(_worksheet)` (lines 58-60) under `@st.cache_data`: on a hit
return the memoised table (whatever sheet produced it — the worksheet is not
part of the key); on a miss read the sheet remotely (one external read) and
memoise. -/
def loadData (ws : String) (store : Store) (c : Caches) :
    SheetTable × Caches × Nat :=
  match c.loadMemo with
  | some t => (t, c, 0)
  | none =>
    let t := store.sheets ws
    (t, { c with loadMemo := some t }, 1)

/-- `geocode_address` under `@st.cache_data`: memoised on the
`(address, name)` pair; a miss runs the body and reports its external
geocoder calls. -/
def geocodeCached (geo : Geocoder) (p : Cell × Cell) (c : Caches) :
    Option Coord × Caches × Nat :=
  match lookupA c.geoMemo p with
  | some r => (r, c, 0)
  | none =>
    let out := geocodeAddress geo p.1 p.2
    (out.result, { c with geoMemo := (p, out.result) :: c.geoMemo }, out.calls)

/-- `fetch_movie_info` under `@st.cache_data`: memoised on the URL; a miss
performs one page fetch. -/
def fetchCached (pages : String → Option Doc) (url : String) (c : Caches) :
    Option (List MovieRow) × Caches × Nat :=
  match lookupA c.fetchMemo url with
  | some r => (r, c, 0)
  | none =>
    let r := fetchMovieInfo url (pages url)
    (r, { c with fetchMemo := (url, r) :: c.fetchMemo }, 1)

/-- Run a sequence of cached geocode queries, returning each query's
result and external-call count. -/
def runGeo (geo : Geocoder) : List (Cell × Cell) → Caches →
    List (Option Coord × Nat) × Caches
  | [], c => ([], c)
  | q :: qs, c =>
    let step := geocodeCached geo q c
    let rest := runGeo geo qs step.2.1
    ((step.1, step.2.2) :: rest.1, rest.2)

/-- Total number of external geocoder calls the run performs on behalf of
queries equal to the pair `p`. -/
def callsFor (geo : Geocoder) (qs : List (Cell × Cell)) (c : Caches)
    (p : Cell × Cell) : Nat :=
  (((qs.zip (runGeo geo qs c).1).filter (fun z => decide (z.1 = p))).map
    (fun z => z.2.2)).sum

/-- The results the run returns for queries equal to the pair `p`. -/
def resultsFor (geo : Geocoder) (qs : List (Cell × Cell)) (c : Caches)
    (p : Cell × Cell) : List (Option Coord) :=
  ((qs.zip (runGeo geo qs c).1).filter (fun z => decide (z.1 = p))).map
    (fun z => z.2.1)

/-! ## Tab 4: derived metrics over `biff_2024` (src/app.py lines 286-371)

`data24 = df_2024[df_2024['상호'].notna() & (df_2024['상호'] != '')
& (~df_2024['상호'].str.contains("Day", na=False))]` is the row filter;
the cost columns are coerced with `pd.to_numeric(errors='coerce').fillna(0)`
and summed into `총비용`. The second preprocessing block parses `방문일자`
and `방문시간`, sorts by `['방문일자', '방문시간_dt']`
(`pandas.sort_values` on several columns is a stable lexsort with missing
keys last), drops rows with unparsed `방문일자`, and groups by calendar
date. The geocoding loops (lines 313-323 and 365-371) rewrite `lat`/`lon`
exactly for the rows whose `lat` is not numeric. -/

/-- The tab-4 row filter (line 292): the place-name cell is present,
nonempty, and does not contain the day-separator marker `"Day"`. -/
def includeRow (r : Row) : Bool :=
  match getCell r "상호" with
  | none => false
  | some s => !s.isEmpty && !hasInfixChars "Day".toList s.toList

/-- `data24`: the filtered historical rows every tab-4 metric is built on. -/
def filterRows (rows : List Row) : List Row := rows.filter includeRow

/-- One coerced cost column (lines 293-294):
`pd.to_numeric(data24[col], errors='coerce').fillna(0)`. -/
def costOf (r : Row) (col : String) : ℚ :=
  (parseNumber ((getCell r col).getD "")).getD 0

/-- `총비용 = 지원비용 + 추가비용` (line 295). -/
def totalCost (r : Row) : ℚ := costOf r "지원비용" + costOf r "추가비용"

/-- `data24['총비용'].sum()` (line 300): the overall spend, computed on the
filtered rows before any date parsing. -/
def totalSpend (rows : List Row) : ℚ :=
  ((filterRows rows).map totalCost).sum

/-- Parsed `방문일자` of a row (line 348). -/
def dateKeyOf (r : Row) : Option Nat :=
  parseDate ((getCell r "방문일자").getD "")

/-- Parsed `방문시간_dt` of a row (line 349). -/
def timeKeyOf (r : Row) : Option Nat :=
  parseTime ((getCell r "방문시간").getD "")

/-- A sort key with a missing-value flag: `none` (NaT) sorts after every
parsed value (`na_position='last'`). -/
def optKey : Option Nat → Nat × Nat
  | none => (1, 0)
  | some n => (0, n)

/-- Comparison of one `(missing-flag, value)` key component. -/
def pairLeB (a b : Nat × Nat) : Bool :=
  decide (a.1 < b.1 ∨ (a.1 = b.1 ∧ a.2 ≤ b.2))

/-- The full lexicographic sort key of `sort_values(by=['방문일자',
'방문시간_dt'])`. -/
def keyOf (r : Row) : (Nat × Nat) × Nat × Nat :=
  (optKey (dateKeyOf r), optKey (timeKeyOf r))

/-- Lexicographic comparison of full sort keys. -/
def keyLeB (a b : (Nat × Nat) × Nat × Nat) : Bool :=
  decide (a.1.1 < b.1.1 ∨ (a.1.1 = b.1.1 ∧
    (a.1.2 < b.1.2 ∨ (a.1.2 = b.1.2 ∧
      (a.2.1 < b.2.1 ∨ (a.2.1 = b.2.1 ∧ a.2.2 ≤ b.2.2))))))

/-- Row comparison used by the sort. -/
def rowLe (r₁ r₂ : Row) : Bool := keyLeB (keyOf r₁) (keyOf r₂)

/-- Line 350: `data24.sort_values(by=['방문일자', '방문시간_dt'])` on the
filtered rows — a stable sort by the lexicographic key. -/
def sortedRows (rows : List Row) : List Row :=
  (filterRows rows).mergeSort rowLe

/-- Line 351: `data24.dropna(subset=['방문일자'])`. -/
def keptRows (rows : List Row) : List Row :=
  (sortedRows rows).filter (fun r => (dateKeyOf r).isSome)

/-- Line 358: `day_df = data24[data24['방문일자'].dt.date == selected_date]`
— the rows of one calendar date, in sorted order. -/
def dayGroup (rows : List Row) (d : Nat) : List Row :=
  (keptRows rows).filter (fun r => decide (dateKeyOf r = some d))

/-- Is the row's `lat` cell numeric?
(`pd.to_numeric(map_data['lat'], errors='coerce')` not `isna`.) -/
def latNumeric (r : Row) : Bool :=
  match getCell r "lat" with
  | some s => (parseNumber s).isSome
  | none => false

/-- The geocoding loop (lines 313-323/365-371): rows whose `lat` is not
numeric get `lat`/`lon` overwritten from `geocode_address(row.get('주소'),
row.get('상호'))`; the loop touches no other row and no other column. The
resolver `g` returns the pair of coordinate cells it writes. -/
def geocodePass (g : Cell → Cell → Cell × Cell) (rows : List Row) :
    List Row :=
  rows.map (fun r =>
    if latNumeric r then r
    else
      let p := g (getCell r "주소") (getCell r "상호")
      setCell (setCell r "lat" p.1) "lon" p.2)

/-! ## Concrete fixtures used by witnesses and counterexamples -/

/-- A historical row with a numeric supported cost and a non-numeric extra
cost. -/
def exampleRow7 : Row :=
  [("상호", some "국밥집"), ("지원비용", some "1000"), ("추가비용", some "abc")]

/-- A row that already holds a numeric coordinate. -/
def rowResolved : Row :=
  [("상호", some "곱창집"), ("주소", some "광안해변로 123"),
   ("lat", some "35.15"), ("lon", some "129.11")]

/-- A row with no coordinate yet. -/
def rowUnresolved : Row :=
  [("상호", some "횟집"), ("주소", some "수영구 456")]

/-- A two-row table for the geocoding loop. -/
def rowsW4 : List Row := [rowResolved, rowUnresolved]

/-- A resolver writing one fixed coordinate pair. -/
def gFixed : Cell → Cell → Cell × Cell := fun _ _ => (some "35.1", some "129.1")

/-- Two rows sharing visit date and time, and one row with an unparsable
visit date. -/
def rowA : Row :=
  [("상호", some "에이집"), ("방문일자", some "2024-09-20"),
   ("방문시간", some "10:00"), ("지원비용", some "1000")]

/-- Second row with the same visit date and time as `rowA`. -/
def rowB : Row :=
  [("상호", some "비집"), ("방문일자", some "2024-09-20"),
   ("방문시간", some "10:00")]

/-- A row whose visit date does not parse. -/
def rowC : Row :=
  [("상호", some "씨집"), ("방문일자", some "나중에"),
   ("방문시간", some "11:00")]

/-- A three-row historical table. -/
def rowsW5 : List Row := [rowA, rowB, rowC]

/-- A well-formed schedule block. -/
def schedW1 : Sched :=
  ⟨some "코드 123", some "날짜 10.05", some "시간 14:00",
   some "상영관 영화의전당", ["GV ", ""]⟩

/-- A second well-formed schedule block. -/
def schedW2 : Sched :=
  ⟨some "456", some "10.06", some "19:30", some "소극장", []⟩

/-- A fully populated detail page with two showings. -/
def docW : Doc :=
  ⟨some ("타이틀", some "부제"), some "Title", some "감독님", some "시놉시스",
   ["국가 한국", "제작연도 2025", "러닝타임 120", "상영포맷 DCP", "컬러 Color"],
   ["#태그1"], [schedW1, schedW2]⟩

/-- A geocode query pair. -/
def pairW : Cell × Cell := (some "망미단길 15", some "수영상회")

/-- A cache state in which `pairW` is already resolved. -/
def cPre : Caches := ⟨none, [(pairW, some (35, 129))], []⟩

/-- An empty remote store. -/
def store0 : Store := ⟨fun _ => []⟩

/-! ## C1: save-then-load round trip -/

/-- C1: for every table saved via `save_data` and then loaded via
`load_data` on the same worksheet handle, the loaded table equals the saved
table with every cell coerced to text and missing cells normalised to the
empty string (the loaded table's cell type is `String`, so no NaN marker can
occur in it); the save cleared the process-wide memo, so this load is a
cache miss that performs one fresh remote read regardless of what was
memoised before the save. -/
theorem c1_save_then_load (store : Store) (c : Caches) (ws : String)
    (df : List (List Cell)) :
    (loadData ws (saveData ws df store c).1 (saveData ws df store c).2).1 =
      df.map (fun row => row.map (fun cell => cell.getD "")) ∧
    (loadData ws (saveData ws df store c).1 (saveData ws df store c).2).2.2
      = 1 := by
  simp [saveData, loadData, clearedCaches, textify]

/-! ## C3 and C8: `geocode_address` fallback, error handling, throttling -/

/-- C3: `geocode_address` first tries the usable address — parenthesised
qualifier stripped, `"부산 "` prefixed — and returns its match; if the
address query raises, returns no match, or the address is absent/blank, it
runs the identical procedure on the name (`geocodeSecond`); if that also
fails (absent/blank name, raised query, or no match) the result is the
`(None, None)` value `none`. The embedding is a total function for every
geocoder behaviour: both `except` arms are part of the definition, so no
exception passes the boundary. -/
theorem c3_geocode_fallback (geo : Geocoder) (address name : Cell) :
    (presentStr address = true →
      (∀ loc, geo (cleanQuery (address.getD "")) = Except.ok (some loc) →
        geocodeAddress geo address name = ⟨some loc, 1, 1⟩) ∧
      (geo (cleanQuery (address.getD "")) = Except.error () →
        geocodeAddress geo address name = geocodeSecond geo name 0 1) ∧
      (geo (cleanQuery (address.getD "")) = Except.ok none →
        geocodeAddress geo address name = geocodeSecond geo name 1 1)) ∧
    (presentStr address = false →
      geocodeAddress geo address name = geocodeSecond geo name 0 0) ∧
    (∀ s c, presentStr name = false → geocodeSecond geo name s c = ⟨none, s, c⟩) ∧
    (∀ s c loc, presentStr name = true →
      geo (cleanQuery (name.getD "")) = Except.ok (some loc) →
      geocodeSecond geo name s c = ⟨some loc, s + 1, c + 1⟩) ∧
    (∀ s c, presentStr name = true →
      geo (cleanQuery (name.getD "")) = Except.error () →
      geocodeSecond geo name s c = ⟨none, s, c + 1⟩) ∧
    (∀ s c, presentStr name = true →
      geo (cleanQuery (name.getD "")) = Except.ok none →
      geocodeSecond geo name s c = ⟨none, s + 1, c + 1⟩) := by
  refine ⟨fun h => ?_, fun h => ?_, fun s c h => ?_, fun s c loc h hq => ?_,
    fun s c h hq => ?_, fun s c h hq => ?_⟩
  · refine ⟨fun loc hq => ?_, fun hq => ?_, fun hq => ?_⟩ <;>
      simp [geocodeAddress, h, hq]
  · simp [geocodeAddress, h]
  · simp [geocodeSecond, h]
  · simp [geocodeSecond, h, hq]
  · simp [geocodeSecond, h, hq]
  · simp [geocodeSecond, h, hq]

/-- C3 witness: a matching geocoder resolves a concrete address at once. -/
theorem c3_geocode_fallback_witness :
    geocodeAddress geoHit (some "해운대해변로 264") (some "영화의전당") =
      ⟨some (35, 129), 1, 1⟩ :=
  ((c3_geocode_fallback geoHit (some "해운대해변로 264")
    (some "영화의전당")).1 (by decide)).1 (35, 129) rfl

/-- C8 counterexample: with a geocoder whose every request raises (for
example, every request times out), the call reaches the external service
twice yet executes `time.sleep(1)` zero times — `time.sleep(1)` sits after
the `geolocator.geocode` call inside the `try`, so a raising call skips it.
This refutes the claim that every invocation whose query reaches the
service is delayed at least one unit on every path. -/
theorem c8_throttle_counterexample :
    (geocodeAddress geoThrow (some "광안해변로 219") (some "민락수변공원")).calls
      = 2 ∧
    (geocodeAddress geoThrow (some "광안해변로 219") (some "민락수변공원")).sleeps
      = 0 := by
  decide

/-- Helper: the sleeps of the name-based attempt. -/
theorem geocodeSecond_sleeps (geo : Geocoder) (name : Cell) (s c : Nat) :
    (geocodeSecond geo name s c).sleeps =
      s + (if presentStr name && isOkReply (geo (cleanQuery (name.getD "")))
        then 1 else 0) := by
  cases hpn : presentStr name
  · simp [geocodeSecond, hpn]
  · rcases hr : geo (cleanQuery (name.getD "")) with e | mloc
    · simp [geocodeSecond, hpn, hr, isOkReply]
    · cases mloc <;> simp [geocodeSecond, hpn, hr, isOkReply]

/-- C8 amended: a `geocode_address` invocation sleeps exactly one unit per
external call that returns without raising (`sleepCount`); on the path
where a reached call raises, no delay is added for it, and when every
reached call raises the invocation returns with no delay at all. -/
theorem c8_throttle_amended (geo : Geocoder) (address name : Cell) :
    (geocodeAddress geo address name).sleeps = sleepCount geo address name ∧
    (presentStr address = true →
      geo (cleanQuery (address.getD "")) = Except.error () →
      presentStr name = true →
      geo (cleanQuery (name.getD "")) = Except.error () →
      (geocodeAddress geo address name).sleeps = 0 ∧
      (geocodeAddress geo address name).calls = 2) := by
  constructor
  · cases hpa : presentStr address
    · simp [geocodeAddress, hpa, sleepCount, nameAttempted,
        geocodeSecond_sleeps]
    · rcases hr : geo (cleanQuery (address.getD "")) with e | mloc
      · simp [geocodeAddress, hpa, hr, sleepCount, nameAttempted,
          isMatchReply, isOkReply, geocodeSecond_sleeps]
      · cases mloc <;>
          simp [geocodeAddress, hpa, hr, sleepCount, nameAttempted,
            isMatchReply, isOkReply, geocodeSecond_sleeps]
  · intro hpa hra hpn hrn
    simp [geocodeAddress, geocodeSecond, hpa, hra, hpn, hrn]

/-- C8 amended witness: a concrete pair of raising queries yields two
contacts and zero delay. -/
theorem c8_throttle_amended_witness :
    (geocodeAddress geoThrow (some "중앙대로 123") (some "부산역")).sleeps = 0 ∧
    (geocodeAddress geoThrow (some "중앙대로 123") (some "부산역")).calls = 2 :=
  (c8_throttle_amended geoThrow (some "중앙대로 123") (some "부산역")).2
    (by decide) rfl (by decide) rfl

/-! ## C9 and C10: memoisation and process-wide invalidation -/

/-- Helper: lookup in a memo table after prepending one binding. -/
theorem lookupA_cons {α β : Type} [DecidableEq α] (k : α) (v : β)
    (l : List (α × β)) (p : α) :
    lookupA ((k, v) :: l) p = if k = p then some v else lookupA l p := by
  by_cases h : k = p <;> simp [lookupA, List.find?, h]

/-- Helper: the name attempt adds at most one geocoder call. -/
theorem geocodeSecond_calls_le (geo : Geocoder) (name : Cell) (s c : Nat) :
    (geocodeSecond geo name s c).calls ≤ c + 1 := by
  cases hpn : presentStr name
  · simp [geocodeSecond, hpn]
  · rcases hr : geo (cleanQuery (name.getD "")) with e | mloc
    · simp [geocodeSecond, hpn, hr]
    · cases mloc <;> simp [geocodeSecond, hpn, hr]

/-- Helper: the name attempt performs at least the calls it entered with. -/
theorem geocodeSecond_calls_ge (geo : Geocoder) (name : Cell) (s c : Nat) :
    c ≤ (geocodeSecond geo name s c).calls := by
  cases hpn : presentStr name
  · simp [geocodeSecond, hpn]
  · rcases hr : geo (cleanQuery (name.getD "")) with e | mloc
    · simp [geocodeSecond, hpn, hr]
    · cases mloc <;> simp [geocodeSecond, hpn, hr]

/-- Helper: one `geocode_address` body contacts the geocoder at most twice
(the address attempt and the name fallback). -/
theorem geocodeAddress_calls_le_two (geo : Geocoder) (a n : Cell) :
    (geocodeAddress geo a n).calls ≤ 2 := by
  cases hpa : presentStr a
  · simpa [geocodeAddress, hpa] using
      Nat.le_trans (geocodeSecond_calls_le geo n 0 0) (by omega)
  · rcases hr : geo (cleanQuery (a.getD "")) with e | mloc
    · simpa [geocodeAddress, hpa, hr] using geocodeSecond_calls_le geo n 0 1
    · cases mloc
      · simpa [geocodeAddress, hpa, hr] using geocodeSecond_calls_le geo n 1 1
      · simp [geocodeAddress, hpa, hr]

/-- Helper: a usable address guarantees at least one geocoder contact. -/
theorem geocodeAddress_calls_ge_one (geo : Geocoder) (a n : Cell)
    (h : presentStr a = true) : 1 ≤ (geocodeAddress geo a n).calls := by
  rcases hr : geo (cleanQuery (a.getD "")) with e | mloc
  · simpa [geocodeAddress, h, hr] using geocodeSecond_calls_ge geo n 0 1
  · cases mloc
    · simpa [geocodeAddress, h, hr] using geocodeSecond_calls_ge geo n 1 1
    · simp [geocodeAddress, h, hr]

/-- Helper: a cached-geocode step leaves the memo entry of any other pair
unchanged. -/
theorem geocodeCached_preserves (geo : Geocoder) (q : Cell × Cell)
    (c : Caches) (p : Cell × Cell) (h : ¬ q = p) :
    lookupA (geocodeCached geo q c).2.1.geoMemo p = lookupA c.geoMemo p := by
  cases hl : lookupA c.geoMemo q <;>
    simp [geocodeCached, hl, lookupA_cons, h]

/-- Helper: the head step of a run, separated from the tail. -/
theorem callsFor_cons (geo : Geocoder) (q : Cell × Cell)
    (qs : List (Cell × Cell)) (c : Caches) (p : Cell × Cell) :
    callsFor geo (q :: qs) c p =
      (if q = p then (geocodeCached geo q c).2.2 else 0) +
        callsFor geo qs (geocodeCached geo q c).2.1 p := by
  by_cases h : q = p <;> simp [callsFor, runGeo, List.filter, List.zip, h]

/-- Helper: the head result of a run, separated from the tail. -/
theorem resultsFor_cons (geo : Geocoder) (q : Cell × Cell)
    (qs : List (Cell × Cell)) (c : Caches) (p : Cell × Cell) :
    resultsFor geo (q :: qs) c p =
      (if q = p then [(geocodeCached geo q c).1] else []) ++
        resultsFor geo qs (geocodeCached geo q c).2.1 p := by
  by_cases h : q = p <;> simp [resultsFor, runGeo, List.filter, List.zip, h]

/-- Helper: over any run of cached geocode queries, a pair that is
memoised costs no further external call and always returns the memoised
value, and an unmemoised pair costs at most one body execution's worth of
calls, every repeat returning that body's result. -/
theorem runGeo_memo (geo : Geocoder) :
    ∀ (qs : List (Cell × Cell)) (c : Caches) (p : Cell × Cell),
    (∀ v, lookupA c.geoMemo p = some v →
      callsFor geo qs c p = 0 ∧ ∀ x ∈ resultsFor geo qs c p, x = v) ∧
    (lookupA c.geoMemo p = none →
      callsFor geo qs c p ≤ (geocodeAddress geo p.1 p.2).calls ∧
      ∀ x ∈ resultsFor geo qs c p,
        x = (geocodeAddress geo p.1 p.2).result)
  | [], c, p => by
    constructor
    · intro v _
      simp [callsFor, resultsFor, runGeo]
    · intro _
      simp [callsFor, resultsFor, runGeo]
  | q :: qs, c, p => by
    constructor
    · intro v hv
      rw [callsFor_cons, resultsFor_cons]
      by_cases hqp : q = p
      · subst hqp
        have hstep : geocodeCached geo q c = (v, c, 0) := by
          simp [geocodeCached, hv]
        rcases (runGeo_memo geo qs c q).1 v hv with ⟨hc, hr⟩
        simp [hstep, hc]
        exact hr
      · have hpres := geocodeCached_preserves geo q c p hqp
        rcases (runGeo_memo geo qs (geocodeCached geo q c).2.1 p).1 v
          (hpres.trans hv) with ⟨hc, hr⟩
        simp [hqp, hc]
        exact hr
    · intro hn
      rw [callsFor_cons, resultsFor_cons]
      by_cases hqp : q = p
      · subst hqp
        have h22 : (geocodeCached geo q c).2.2 =
            (geocodeAddress geo q.1 q.2).calls := by
          simp [geocodeCached, hn]
        have h1 : (geocodeCached geo q c).1 =
            (geocodeAddress geo q.1 q.2).result := by
          simp [geocodeCached, hn]
        have hlook : lookupA (geocodeCached geo q c).2.1.geoMemo q =
            some (geocodeAddress geo q.1 q.2).result := by
          simp [geocodeCached, hn, lookupA_cons]
        rcases (runGeo_memo geo qs (geocodeCached geo q c).2.1 q).1
          (geocodeAddress geo q.1 q.2).result hlook with ⟨hc, hr⟩
        constructor
        · rw [if_pos rfl, h22, hc]
          omega
        · intro x hx
          rw [if_pos rfl] at hx
          rcases List.mem_append.mp hx with hx | hx
          · rw [List.mem_singleton.mp hx, h1]
          · exact hr x hx
      · have hpres := geocodeCached_preserves geo q c p hqp
        rcases (runGeo_memo geo qs (geocodeCached geo q c).2.1 p).2
          (hpres.trans hn) with ⟨hc, hr⟩
        constructor
        · simpa [hqp] using hc
        · intro x hx
          exact hr x (by simpa [hqp] using hx)

/-- C9 counterexample: for a geocoder that reports no match, one single
invocation on one distinct pair already contacts the external service twice
(the address query and the name fallback), refuting "contacted at most once
per distinct pair within a cache lifetime". -/
theorem c9_memo_counterexample :
    callsFor geoNoMatch [pairW] clearedCaches pairW = 2 := by decide

/-- C9 amended: `geocode_address` is memoised on the `(address, name)` pair:
over any sequence of invocations within one cache lifetime the memoised body
runs at most once per distinct pair — so the external geocoder is contacted
at most twice per distinct pair (address attempt plus name fallback), not at
most once — a pair already memoised costs zero further contacts, and every
invocation of the same pair returns the same result. -/
theorem c9_memo_amended (geo : Geocoder) (qs : List (Cell × Cell))
    (c : Caches) (p : Cell × Cell) :
    callsFor geo qs c p ≤ (geocodeAddress geo p.1 p.2).calls ∧
    (geocodeAddress geo p.1 p.2).calls ≤ 2 ∧
    (∀ v, lookupA c.geoMemo p = some v → callsFor geo qs c p = 0) ∧
    (∀ x ∈ resultsFor geo qs c p,
      x = (lookupA c.geoMemo p).getD (geocodeAddress geo p.1 p.2).result) := by
  refine ⟨?_, geocodeAddress_calls_le_two geo p.1 p.2, ?_, ?_⟩
  · cases hl : lookupA c.geoMemo p
    · exact ((runGeo_memo geo qs c p).2 hl).1
    · rename_i v
      have := ((runGeo_memo geo qs c p).1 v hl).1
      omega
  · intro v hl
    exact ((runGeo_memo geo qs c p).1 v hl).1
  · intro x hx
    cases hl : lookupA c.geoMemo p
    · simpa using ((runGeo_memo geo qs c p).2 hl).2 x hx
    · rename_i v
      simpa using ((runGeo_memo geo qs c p).1 v hl).2 x hx

/-- C9 amended witness: a pair memoised in the cache state costs zero
external calls over a run that queries it twice. -/
theorem c9_memo_amended_witness :
    callsFor geoNoMatch [pairW, pairW] cPre pairW = 0 :=
  (c9_memo_amended geoNoMatch [pairW, pairW] cPre pairW).2.2.1
    (some (35, 129)) rfl

/-- C10: one `save_data` call empties every `st.cache_data` memo
process-wide — the `load_data` slot, the `geocode_address` table and the
`fetch_movie_info` table — so after any save the next `geocode_address` use
of any pair performs its full uncached external work (at least one geocoder
contact whenever the address is usable), and the next `fetch_movie_info`
use of any URL performs one fresh page fetch. -/
theorem c10_save_clears_all_memos (store : Store) (c : Caches) (ws : String)
    (df : List (List Cell)) (geo : Geocoder) (p : Cell × Cell)
    (pages : String → Option Doc) (url : String) :
    (saveData ws df store c).2.loadMemo = none ∧
    (saveData ws df store c).2.geoMemo = [] ∧
    (saveData ws df store c).2.fetchMemo = [] ∧
    (geocodeCached geo p (saveData ws df store c).2).2.2 =
      (geocodeAddress geo p.1 p.2).calls ∧
    (fetchCached pages url (saveData ws df store c).2).2.2 = 1 ∧
    (presentStr p.1 = true →
      1 ≤ (geocodeCached geo p (saveData ws df store c).2).2.2) := by
  refine ⟨rfl, rfl, rfl, ?_, ?_, ?_⟩
  · simp [saveData, clearedCaches, geocodeCached, lookupA]
  · simp [saveData, clearedCaches, fetchCached, lookupA]
  · intro h
    have := geocodeAddress_calls_ge_one geo p.1 p.2 h
    simpa [saveData, clearedCaches, geocodeCached, lookupA] using this

/-- C10 witness: after a save, a concrete usable pair re-hits the external
geocoder. -/
theorem c10_save_clears_all_memos_witness :
    1 ≤ (geocodeCached geoThrow ((some "전포대로 99"), none)
      (saveData "movies" [] store0 cPre).2).2.2 :=
  (c10_save_clears_all_memos store0 cPre "movies" [] geoThrow
    ((some "전포대로 99"), none) (fun _ => none) "u").2.2.2.2.2 (by decide)

/-! ## C2: the schedule extractor -/

/-- Helper: a well-formed schedule block yields the merged row. -/
theorem schedRow_wf (url : String) (base : MovieRow) (s : Sched)
    (h : wellFormedSched s = true) :
    schedRow url base s = some (base ++ showFields url s) := by
  rcases s with ⟨c, d, t, th, g⟩
  cases c <;> cases d <;> cases t <;> cases th <;>
    simp_all [wellFormedSched, schedRow]

/-- Helper: a block missing one of the four dereferenced tags raises. -/
theorem schedRow_bad (url : String) (base : MovieRow) (s : Sched)
    (h : wellFormedSched s = false) : schedRow url base s = none := by
  rcases s with ⟨c, d, t, th, g⟩
  cases c <;> cases d <;> cases t <;> cases th <;>
    simp_all [wellFormedSched, schedRow]

/-- Helper: the schedule loop over well-formed blocks produces one merged
row per block. -/
theorem mapM_schedRow_wf (url : String) (base : MovieRow) :
    ∀ (l : List Sched), (∀ s ∈ l, wellFormedSched s = true) →
      l.mapM (schedRow url base) =
        some (l.map (fun s => base ++ showFields url s))
  | [], _ => rfl
  | a :: l, h => by
    rw [List.mapM_cons, schedRow_wf url base a (h a (by simp)),
      mapM_schedRow_wf url base l (fun s hs => h s (by simp [hs]))]
    rfl

/-- Helper: one ill-formed block anywhere makes the whole loop raise. -/
theorem mapM_schedRow_bad (url : String) (base : MovieRow) :
    ∀ (l : List Sched), (∃ s ∈ l, wellFormedSched s = false) →
      l.mapM (schedRow url base) = none
  | a :: l, h => by
    rcases h with ⟨s, hs, hbad⟩
    rcases List.mem_cons.mp hs with rfl | hs
    · rw [List.mapM_cons, schedRow_bad url base s hbad]
      rfl
    · rw [List.mapM_cons, mapM_schedRow_bad url base l ⟨s, hs, hbad⟩]
      cases schedRow url base a <;> rfl

/-- Helper: lookup in a concatenation of rows. -/
theorem lookupRow_append (r₁ r₂ : MovieRow) (k : String) :
    lookupRow (r₁ ++ r₂) k = (lookupRow r₁ k).or (lookupRow r₂ k) := by
  induction r₁ with
  | nil => simp [lookupRow]
  | cons a t ih =>
    by_cases h : a.1 = k <;> simp [lookupRow, h, ih]

/-- C2: `fetch_movie_info` on an unreachable page returns `None`; on a
fetched page whose K ≥ 1 showing blocks all carry their tags it returns
exactly K rows, the i-th row being the film-level fields followed by the
i-th showing's fields (so the film-level fields are bound identically in
every row and each film-level binding survives the merge); on a fetched
page with zero showing blocks it returns exactly the one row of film-level
fields, in which every showing-level column is absent; and a parse failure
inside the showing loop yields `None` with no partial rows. -/
theorem c2_extract_rows (url : String) (d : Doc) :
    fetchMovieInfo url none = none ∧
    ((∀ s ∈ d.schedules, wellFormedSched s = true) → d.schedules ≠ [] →
      fetchMovieInfo url (some d) =
        some (d.schedules.map (fun s => baseInfo d ++ showFields url s)) ∧
      ∀ rows, fetchMovieInfo url (some d) = some rows →
        rows.length = d.schedules.length) ∧
    (d.schedules = [] → fetchMovieInfo url (some d) = some [baseInfo d]) ∧
    ((∃ s ∈ d.schedules, wellFormedSched s = false) →
      fetchMovieInfo url (some d) = none) ∧
    (∀ k, k ∈ showingKeys → lookupRow (baseInfo d) k = none) ∧
    (∀ k v, lookupRow (baseInfo d) k = some v →
      ∀ s, lookupRow (baseInfo d ++ showFields url s) k = some v) ∧
    (∀ s k, k ∈ showingKeys →
      lookupRow (baseInfo d ++ showFields url s) k =
        lookupRow (showFields url s) k) := by
  have hbase : ∀ k, k ∈ showingKeys → lookupRow (baseInfo d) k = none := by
    intro k hk
    simp only [showingKeys, List.mem_cons, List.not_mem_nil, or_false] at hk
    rcases hk with rfl | rfl | rfl | rfl | rfl | rfl <;>
      simp [baseInfo, lookupRow]
  refine ⟨rfl, fun hwf hne => ?_, fun h0 => ?_, fun hbad => ?_, hbase,
    fun k v hkv s => ?_, fun s k hk => ?_⟩
  · have hmap := mapM_schedRow_wf url (baseInfo d) d.schedules hwf
    have hmain : fetchMovieInfo url (some d) =
        some (d.schedules.map (fun s => baseInfo d ++ showFields url s)) := by
      rw [fetchMovieInfo, hmap]
      simp [List.isEmpty_iff, hne]
    refine ⟨hmain, fun rows hrows => ?_⟩
    rw [hmain] at hrows
    simpa using congrArg List.length (Option.some.inj hrows).symm
  · rw [fetchMovieInfo, h0]
    rfl
  · rw [fetchMovieInfo, mapM_schedRow_bad url (baseInfo d) d.schedules hbad]
  · rw [lookupRow_append, hkv]
    rfl
  · rw [lookupRow_append, hbase k hk]
    rfl

/-- C2 witness: a concrete two-showing page yields the two merged rows. -/
theorem c2_extract_rows_witness :
    fetchMovieInfo "u" (some docW) =
      some (docW.schedules.map (fun s => baseInfo docW ++ showFields "u" s)) :=
  (((c2_extract_rows "u" docW).2.1 (by decide) (by decide))).1

/-! ## C4: the geocoding loop writes only unresolved rows -/

/-- Helper: writing one column leaves every other column's cell unchanged. -/
theorem getCell_setCell_ne (r : Row) (k k' : String) (v : Cell)
    (h : ¬ k = k') : getCell (setCell r k v) k' = getCell r k' := by
  induction r with
  | nil => simp [setCell, getCell, h]
  | cons a t ih =>
    by_cases hak : a.1 = k
    · rcases a with ⟨ka, va⟩
      subst hak
      simp [setCell, getCell, h]
    · rcases a with ⟨ka, va⟩
      by_cases hak' : ka = k'
      · have h2 : ¬ k' = k := hak' ▸ hak
        simp [setCell, getCell, hak, hak', h2]
      · simp [setCell, getCell, hak, hak', ih]

/-- C4: in the tab-4 geocoding loop, a row whose `lat` cell parses as a
number is returned exactly as it was (no field touched), and a row whose
`lat` cell is absent or non-numeric gets exactly the resolver's `lat`/`lon`
cells written while every other column keeps its cell. -/
theorem c4_geocode_pass_frame (g : Cell → Cell → Cell × Cell)
    (rows : List Row) (i : Nat) (r : Row) (h : rows[i]? = some r) :
    (latNumeric r = true → (geocodePass g rows)[i]? = some r) ∧
    (latNumeric r = false →
      (geocodePass g rows)[i]? =
        some (setCell (setCell r "lat" (g (getCell r "주소") (getCell r "상호")).1)
          "lon" (g (getCell r "주소") (getCell r "상호")).2) ∧
      ∀ k, ¬ k = "lat" → ¬ k = "lon" →
        getCell (setCell (setCell r "lat" (g (getCell r "주소") (getCell r "상호")).1)
          "lon" (g (getCell r "주소") (getCell r "상호")).2) k = getCell r k) := by
  constructor
  · intro hl
    rw [geocodePass, List.getElem?_map, h]
    simp [hl]
  · intro hl
    constructor
    · rw [geocodePass, List.getElem?_map, h]
      simp [hl]
    · intro k hk1 hk2
      rw [getCell_setCell_ne _ _ _ _ (fun he => hk2 he.symm),
        getCell_setCell_ne _ _ _ _ (fun he => hk1 he.symm)]

/-- C4 witness: in a concrete table the already-resolved row passes through
unchanged. -/
theorem c4_geocode_pass_frame_witness :
    (geocodePass gFixed rowsW4)[0]? = some rowResolved :=
  (c4_geocode_pass_frame gFixed rowsW4 0 rowResolved rfl).1 (by decide)

/-! ## C6 and C7: the metrics row filter and cost coercion -/

/-- Helper: a string is non-blank exactly when `isEmpty` is `false`. -/
theorem isEmpty_false_iff (s : String) : s.isEmpty = false ↔ s ≠ "" := by
  rw [Bool.eq_false_iff, ne_eq, String.isEmpty_iff]

/-- C6: a historical row enters `data24` — the base of every tab-4 metric —
exactly when its place-name cell is present, nonempty, and free of the
day-separator marker `"Day"` (the `contains` test of line 292 is a
substring match). -/
theorem c6_metrics_row_filter (rows : List Row) (r : Row) :
    r ∈ filterRows rows ↔
      r ∈ rows ∧ ∃ s, getCell r "상호" = some s ∧ s ≠ "" ∧
        hasInfixChars "Day".toList s.toList = false := by
  rw [filterRows, List.mem_filter]
  constructor
  · rintro ⟨hm, hinc⟩
    refine ⟨hm, ?_⟩
    cases hcell : getCell r "상호" with
    | none => simp [includeRow, hcell] at hinc
    | some s =>
      simp only [includeRow, hcell, Bool.and_eq_true, Bool.not_eq_true'] at hinc
      exact ⟨s, rfl, (isEmpty_false_iff s).mp hinc.1, hinc.2⟩
  · rintro ⟨hm, s, hcell, hne, hday⟩
    refine ⟨hm, ?_⟩
    simp only [includeRow, hcell, Bool.and_eq_true, Bool.not_eq_true']
    exact ⟨(isEmpty_false_iff s).mpr hne, hday⟩

/-- C7: the derived total cost of a historical row is the sum of its two
cost cells each parsed as a number, a missing cell or an unparseable cell
coercing to zero (so no missing-value marker enters a sum); in particular
supported `"1000"` with extra `"abc"` totals exactly 1000. -/
theorem c7_total_cost_coercion :
    (∀ r su ex, getCell r "지원비용" = some su → getCell r "추가비용" = some ex →
      totalCost r = (parseNumber su).getD 0 + (parseNumber ex).getD 0) ∧
    (∀ r col, getCell r col = none → costOf r col = 0) ∧
    (∀ r col s, getCell r col = some s → parseNumber s = none →
      costOf r col = 0) ∧
    totalCost exampleRow7 = 1000 := by
  refine ⟨fun r su ex hsu hex => ?_, fun r col h => ?_,
    fun r col s h hp => ?_, ?_⟩
  · rw [totalCost, costOf, costOf, hsu, hex]
    rfl
  · rw [costOf, h]
    rfl
  · rw [costOf, h, Option.getD_some, hp]
    rfl
  · have h : totalCost exampleRow7 = ((1000 : ℕ) : ℚ) + 0 := rfl
    rw [h]
    norm_num

/-- C7 witness: the concrete row with supported `"1000"` and extra `"abc"`
instantiates the coercion equation. -/
theorem c7_total_cost_coercion_witness :
    totalCost exampleRow7 =
      (parseNumber "1000").getD 0 + (parseNumber "abc").getD 0 :=
  c7_total_cost_coercion.1 exampleRow7 "1000" "abc" rfl rfl

/-! ## C5: per-day grouping, time ordering, stability -/

/-- Helper: the lexicographic key comparison is transitive. -/
theorem keyLeB_trans (a b c : (Nat × Nat) × Nat × Nat)
    (h1 : keyLeB a b = true) (h2 : keyLeB b c = true) : keyLeB a c = true := by
  simp only [keyLeB, decide_eq_true_eq] at h1 h2 ⊢
  omega

/-- Helper: the lexicographic key comparison is total. -/
theorem keyLeB_total (a b : (Nat × Nat) × Nat × Nat) :
    (keyLeB a b || keyLeB b a) = true := by
  simp only [keyLeB, Bool.or_eq_true, decide_eq_true_eq]
  omega

/-- Helper: the key comparison is reflexive. -/
theorem keyLeB_refl (a : (Nat × Nat) × Nat × Nat) : keyLeB a a = true := by
  simp [keyLeB]

/-- Helper: the row comparison is transitive. -/
theorem rowLe_trans (a b c : Row) (h1 : rowLe a b = true)
    (h2 : rowLe b c = true) : rowLe a c = true :=
  keyLeB_trans _ _ _ h1 h2

/-- Helper: the row comparison is total. -/
theorem rowLe_total (a b : Row) : (rowLe a b || rowLe b a) = true :=
  keyLeB_total _ _

/-- Helper: between rows of one calendar date, the lexicographic order is
the visit-time order. -/
theorem rowLe_time (d : Nat) (r₁ r₂ : Row) (h1 : dateKeyOf r₁ = some d)
    (h2 : dateKeyOf r₂ = some d) (h : rowLe r₁ r₂ = true) :
    pairLeB (optKey (timeKeyOf r₁)) (optKey (timeKeyOf r₂)) = true := by
  simp only [rowLe, keyOf, h1, h2, optKey, keyLeB, pairLeB,
    decide_eq_true_eq] at h ⊢
  omega

/-- Helper: the sum of a mapped list splits along any Boolean partition. -/
theorem sum_map_filter_split (f : Row → ℚ) (p : Row → Bool) :
    ∀ l : List Row, (l.map f).sum =
      ((l.filter p).map f).sum + ((l.filter (fun x => !p x)).map f).sum
  | [] => by simp
  | a :: l => by
    cases hp : p a <;>
      simp [List.filter_cons, hp, sum_map_filter_split f p l] <;> ring

/-- C5: in the tab-4 per-day grouping, (1) a row appears in the group of
calendar date `d` exactly when it passed the row filter and its visit date
parses to `d`; (2) each group is internally ordered by parsed visit time
with rows whose visit time does not parse after all rows whose time parses;
(3) the order is otherwise stable: two filtered rows of the same date with
equal parsed-time keys keep their original relative order inside the group;
(4) a row whose visit date does not parse appears in no day group; and
(5) it still counts toward the overall cost sum, which splits as the
parseable-date rows' total plus the unparseable-date rows' total. -/
theorem c5_day_grouping (rows : List Row) (d : Nat) :
    (∀ r, r ∈ dayGroup rows d ↔
      r ∈ filterRows rows ∧ dateKeyOf r = some d) ∧
    (dayGroup rows d).Pairwise
      (fun r₁ r₂ =>
        pairLeB (optKey (timeKeyOf r₁)) (optKey (timeKeyOf r₂)) = true) ∧
    (∀ a b, List.Sublist [a, b] (filterRows rows) → dateKeyOf a = some d →
      dateKeyOf b = some d → timeKeyOf a = timeKeyOf b →
      List.Sublist [a, b] (dayGroup rows d)) ∧
    (∀ r, dateKeyOf r = none → r ∉ dayGroup rows d) ∧
    totalSpend rows =
      (((filterRows rows).filter (fun r => (dateKeyOf r).isSome)).map
        totalCost).sum +
      (((filterRows rows).filter (fun r => !(dateKeyOf r).isSome)).map
        totalCost).sum := by
  have hmem : ∀ r, r ∈ dayGroup rows d ↔
      r ∈ filterRows rows ∧ dateKeyOf r = some d := by
    intro r
    constructor
    · intro h
      simp only [dayGroup, List.mem_filter, decide_eq_true_eq] at h
      obtain ⟨hk, hd⟩ := h
      simp only [keptRows, List.mem_filter] at hk
      obtain ⟨hs, _⟩ := hk
      simp only [sortedRows, List.mem_mergeSort] at hs
      exact ⟨hs, hd⟩
    · intro h
      obtain ⟨hf, hd⟩ := h
      simp only [dayGroup, keptRows, sortedRows, List.mem_filter,
        List.mem_mergeSort, decide_eq_true_eq]
      exact ⟨⟨hf, by simp [hd]⟩, hd⟩
  refine ⟨hmem, ?_, ?_, ?_, ?_⟩
  · have hs : (sortedRows rows).Pairwise (fun a b => rowLe a b = true) :=
      List.sorted_mergeSort rowLe_trans rowLe_total (filterRows rows)
    have hp : (dayGroup rows d).Pairwise (fun a b => rowLe a b = true) :=
      (hs.filter _).filter _
    refine hp.imp_of_mem ?_
    intro a b ha hb hle
    exact rowLe_time d a b ((hmem a).mp ha).2 ((hmem b).mp hb).2 hle
  · intro a b hsub hda hdb ht
    have hkeys : keyOf a = keyOf b := by
      simp [keyOf, hda, hdb, ht]
    have hle : rowLe a b = true := by
      rw [rowLe, hkeys]
      exact keyLeB_refl _
    have h1 : List.Sublist [a, b] (sortedRows rows) :=
      List.pair_sublist_mergeSort rowLe_trans rowLe_total hle hsub
    have h2 := h1.filter (fun r => (dateKeyOf r).isSome)
    rw [show List.filter (fun r => (dateKeyOf r).isSome) [a, b] = [a, b] by
      simp [hda, hdb]] at h2
    have h3 := h2.filter (fun r => decide (dateKeyOf r = some d))
    rw [show List.filter (fun r => decide (dateKeyOf r = some d)) [a, b]
        = [a, b] by simp [hda, hdb]] at h3
    exact h3
  · intro r hn hmem'
    have := ((hmem r).mp hmem').2
    rw [hn] at this
    exact Option.noConfusion this
  · exact sum_map_filter_split totalCost _ (filterRows rows)

/-- C5 witness: in the concrete three-row table, the two rows sharing date
`2024-09-20` and time `10:00` keep their original order inside that day's
group. -/
theorem c5_day_grouping_witness :
    List.Sublist [rowA, rowB] (dayGroup rowsW5 20240920) :=
  (c5_day_grouping rowsW5 20240920).2.2.1 rowA rowB (by decide) (by decide)
    (by decide) (by decide)

end Biff
